import Mathlib

/-!
# soshell — verification of the packet protocol, read-dispatch loop and flow handlers

This file is a shallow embedding of the soshell server (files `main.go` and
`cmd.go`) in Lean 4, together with theorems settling the specification's
claims about it.

Modelling conventions:
* Go machine state (the websocket connection, the inbound frame stream, the
  per-session user identity) is threaded explicitly as a `Sess` value.
* Go `error` values are `Option String` (`none` = `nil`).
* Go maps with string keys are association lists `List (String × String)`;
  a concrete Go map is represented by its (extensionally unique) key-sorted
  association list, and `encoding/json`'s key-sorted object output therefore
  corresponds to emitting the list in order.
* The repository is mid-refactor: `main.go` and `cmd.go` both declare a
  `packet` type (`main.go` with fields `Type`/`Args`/`Map`, `cmd.go` with
  `Type`/`Data`).  We embed `main.go`'s wire packet as `packet` and
  `cmd.go`'s directive packet as `dpacket`.  The Go field name `Type` is a
  Lean keyword and is rendered `Typ`.
* External collaborators that are not part of `src/` (the user store reached
  through `user.load`/`user.save`/`pathExists`, and the validators
  `isName`/`isEmail`) are modelled from the spec as an `Env` of functions.
* The rendezvous receive used by `cmd.go` (`c.recieve()`, the source's
  spelling) is not present in `src/`; it is modelled from the spec as the
  primitive that hands the next inbound raw frame to the caller.
-/

/-- `main.go` lines 23–27: the wire envelope.  Go declares
`Type string; Args []string; Map map[string]string`; `Type` is a Lean
keyword, so the field is called `Typ`. -/
structure packet where
  Typ : String
  Args : List String
  Map : List (String × String)
deriving DecidableEq, Repr

/-- The Go zero value of `packet`, produced by `var p packet` before a
`json.Unmarshal`/`websocket.JSON.Receive` into it. -/
def zeroPacket : packet := ⟨"", [], []⟩

/-- A JSON document, the structured-text form produced by `json.Marshal`
(`main.go` line 66) and consumed by `websocket.JSON.Receive`
(`main.go` line 60).  Only the constructors exercised by the `packet`
codec are needed. -/
inductive Json where
  | null : Json
  | str (s : String) : Json
  | arr (xs : List Json) : Json
  | obj (fields : List (String × Json)) : Json

/-- `json.Marshal` of a `packet` (`main.go` `sendPacket`): a JSON object
with the three struct fields in declaration order; the `Map` field is the
key/value object (Go emits map keys sorted — the association list is the
sorted representation of the map, see the file header). -/
def encodePacket (p : packet) : Json :=
  .obj [("Type", .str p.Typ),
        ("Args", .arr (p.Args.map .str)),
        ("Map", .obj (p.Map.map fun kv => (kv.1, .str kv.2)))]

/-- First-match field lookup in a JSON object, as `json.Unmarshal` resolves
struct field names. -/
def jLookup : List (String × Json) → String → Option Json
  | [], _ => none
  | (k, v) :: rest, key => if k = key then some v else jLookup rest key

/-- Decode a JSON array of strings into `[]string`; any non-string element
is an unmarshal error. -/
def decStrList : List Json → Option (List String)
  | [] => some []
  | .str s :: rest => (decStrList rest).map fun xs => s :: xs
  | _ => none

/-- Decode a JSON object with string values into `map[string]string`; any
non-string value is an unmarshal error. -/
def decStrMap : List (String × Json) → Option (List (String × String))
  | [] => some []
  | (k, .str s) :: rest => (decStrMap rest).map fun xs => (k, s) :: xs
  | _ => none

/-- Decode the `Type` field: absent or `null` yields the Go zero value `""`. -/
def decTypField : Option Json → Option String
  | none => some ""
  | some .null => some ""
  | some (.str s) => some s
  | some _ => none

/-- Decode the `Args` field: absent or `null` yields the Go zero value
(`nil` slice, i.e. `[]`). -/
def decArgsField : Option Json → Option (List String)
  | none => some []
  | some .null => some []
  | some (.arr xs) => decStrList xs
  | some _ => none

/-- Decode the `Map` field: absent or `null` yields the Go zero value
(`nil` map, i.e. `[]`). -/
def decMapField : Option Json → Option (List (String × String))
  | none => some []
  | some .null => some []
  | some (.obj fs) => decStrMap fs
  | some _ => none

/-- `json.Unmarshal` into a `packet` (`websocket.JSON.Receive`,
`main.go` `readPacket`): the payload must be a JSON object; each struct
field is decoded from the object, missing fields keeping their zero
values. -/
def decodePacket : Json → Option packet
  | .obj fs => do
    let t ← decTypField (jLookup fs "Type")
    let a ← decArgsField (jLookup fs "Args")
    let m ← decMapField (jLookup fs "Map")
    some ⟨t, a, m⟩
  | _ => none

theorem decStrList_encode (xs : List String) :
    decStrList (xs.map .str) = some xs := by
  induction xs with
  | nil => rfl
  | cons x xs ih => simp [decStrList, ih]

theorem decStrMap_encode (m : List (String × String)) :
    decStrMap (m.map fun kv => (kv.1, .str kv.2)) = some m := by
  induction m with
  | nil => rfl
  | cons kv m ih => simp [decStrMap, ih]

/-- **C7** — For every packet, encoding it to its JSON wire form and
decoding that form yields a packet with the original type and map (for a
directive packet) and the original args (for a command packet): encode
then decode is the identity on all three packet fields. -/
theorem encode_decode_packet (p : packet) :
    decodePacket (encodePacket p) = some p := by
  simp [encodePacket, decodePacket, jLookup, decTypField, decArgsField,
    decMapField, decStrList_encode, decStrMap_encode]

/-- `cmd.go` lines 20–23: the directive packet (the file's own `packet`
redeclaration, with fields `Type`/`Data`; renamed `dpacket` here to coexist
with `main.go`'s wire packet, and `Typ` for the keyword `Type`). -/
structure dpacket where
  Typ : String
  Data : List (String × String)
deriving DecidableEq, Repr

/-- `cmd.go` `newPacket`: an initialized directive packet with `Type` set
to `t` and an empty `Data` map. -/
def newDPacket (t : String) : dpacket := ⟨t, []⟩

/-- The directive built by `appendMsg` (`cmd.go` lines 33–42). -/
def msgPkt (selector text : String) : dpacket :=
  ⟨"appendElement",
   [("Element", "div"), ("Selector", selector), ("Class", "msg"),
    ("Text", text), ("Scroll", "true")]⟩

/-- The directive built by `appendLink` (`cmd.go` lines 44–57). -/
def linkPkt (selector url text : String) : dpacket :=
  ⟨"appendElement",
   [("Element", "a"), ("Selector", selector), ("Id", text),
    ("Class", "ip-link"), ("Href", url), ("Text", text),
    ("Target", "_blank"), ("Scroll", "true"), ("OnClick", "removeDecoration")]⟩

/-- The directive built by `appendBreak` (`cmd.go` lines 59–66). -/
def breakPkt (selector : String) : dpacket :=
  ⟨"appendElement", [("Element", "br"), ("Selector", selector), ("Scroll", "true")]⟩

/-- The directive built by `focus` (`cmd.go` lines 69–75). -/
def focusPkt (selector value : String) : dpacket :=
  ⟨"focus", [("Selector", selector), ("Value", value)]⟩

/-- The query directive built by `exists` (`cmd.go` lines 78–89). -/
def existsPkt (selector : String) : dpacket :=
  ⟨"exists", [("Selector", selector)]⟩

/-- The directive built by `innerHTML` (`cmd.go` lines 92–98). -/
def innerHTMLPkt (selector value : String) : dpacket :=
  ⟨"innerHTML", [("Selector", selector), ("Value", value)]⟩

/-- The query directive built by `getHTML` (`cmd.go` lines 101–116). -/
def getHTMLPkt (selector : String) : dpacket :=
  ⟨"getHTML", [("Selector", selector)]⟩

/-- The directive built by `setAttribute` (`cmd.go` lines 119–126). -/
def setAttrPkt (selector attr value : String) : dpacket :=
  ⟨"setAttribute", [("Selector", selector), ("Attribute", attr), ("Value", value)]⟩

/-- The query directive built by `getAttribute` (`cmd.go` lines 129–141). -/
def getAttrPkt (selector attr : String) : dpacket :=
  ⟨"getAttribute", [("Selector", selector), ("Attribute", attr)]⟩

/-- The directive built by `setProperty` (`cmd.go` lines 144–150; the
property name itself is used as the directive type). -/
def setPropPkt (selector property value : String) : dpacket :=
  ⟨property, [("Selector", selector), ("Value", value)]⟩

/-- The query directive built by `getProperty` (`cmd.go` lines 153–165). -/
def getPropPkt (selector property : String) : dpacket :=
  ⟨"getProperty", [("Selector", selector), ("Property", property)]⟩

/-- The directive built by `editable` (`cmd.go` lines 168–174). -/
def editablePkt (selector value : String) : dpacket :=
  ⟨"editable", [("Selector", selector), ("Value", value)]⟩

/-- JSON string escaping for the byte-level rendering of a frame. -/
def jquote (s : String) : String :=
  "\"" ++ s.foldl (fun acc c =>
    acc ++ if c = '"' then "\\\"" else if c = '\\' then "\\\\" else String.singleton c) "" ++ "\""

/-- The byte-level text of a marshalled wire packet, as written by
`json.Marshal` in `sendPacket` (`main.go` lines 64–73): struct fields in
declaration order, map keys in the (sorted) order of the association list. -/
def renderPacket (p : packet) : String :=
  "\x7b\"Type\":" ++ jquote p.Typ ++
  ",\"Args\":[" ++ String.intercalate "," (p.Args.map jquote) ++
  "],\"Map\":\x7b" ++
  String.intercalate "," (p.Map.map fun kv => jquote kv.1 ++ ":" ++ jquote kv.2) ++
  "\x7d\x7d"

/-- One inbound websocket frame.  A frame either carries a marshalled wire
packet (a command typed in the client), or a bare reply — a raw scalar
string answering a query, which is not a structurally valid `packet`
document and on which `websocket.JSON.Receive` fails. -/
inductive Frame where
  | fcmd (p : packet) : Frame
  | raw (s : String) : Frame
deriving DecidableEq, Repr

/-- `websocket.JSON.Receive`'s view of a frame: a packet frame decodes to
its packet (by `encode_decode_packet`), a bare reply does not decode. -/
def Frame.dec : Frame → Option packet
  | .fcmd p => some p
  | .raw _ => none

/-- `websocket.Message.Receive`'s view of a frame: the raw frame text. -/
def Frame.text : Frame → String
  | .fcmd p => renderPacket p
  | .raw s => s

/-- Modelled from the spec: the user identity held by a session
(`client.user` in `cmd.go`; the `user` type itself lives in a source file
missing from `src/` — the spec gives it a name and an email reachable from
the register flow). -/
structure User where
  Name : String
  Email : String
deriving DecidableEq, Repr

/-- Modelled from the spec (§6, external interfaces): the collaborators
that are outside `src/` — the validators `isName`/`isEmail`, the user
store's existence check (`pathExists` over the content-addressed index
path, collapsed to a name-keyed check), `user.load` (returning the loaded
identity on success and `none` on invalid credentials, leaving the
session's identity untouched on failure), and the error result of
`user.save`. -/
structure Env where
  isName : String → Bool
  isEmail : String → Bool
  userExists : String → Bool
  load : String → String → Option User
  saveErr : String → String → Option String

/-- One observable event of a session run: a write attempt of a directive
(with its transport success bit), or the consumption of the `i`-th inbound
frame — by the read loop's `readPacket` (`read`) or by a pending query's
`recieve` (`recv`). -/
inductive Ev where
  | write (p : dpacket) (ok : Bool) : Ev
  | read (i : Nat) : Ev
  | recv (i : Nat) : Ev
deriving DecidableEq, Repr

/-- The session state threaded through the embedded Go code: the remaining
inbound frames, the count of frames consumed so far (`pos`), the oracle of
transport write outcomes (`writeOks`, an exhausted oracle meaning success),
the event trace, the session's user identity, and the log of persistence
calls (`user.save` invocations as (name, password) pairs). -/
structure Sess where
  inbox : List Frame
  pos : Nat
  writeOks : List Bool
  trace : List Ev
  user : User
  saves : List (String × String)
deriving DecidableEq, Repr

/-- Pop the next write outcome from the oracle (empty oracle = success). -/
def popOk : List Bool → Bool × List Bool
  | [] => (true, [])
  | b :: rest => (b, rest)

/-- `c.ws.WriteJSON(p)`: one write attempt of a directive packet; records
the attempt with its outcome and returns the Go error. -/
def writeJSON (p : dpacket) (s : Sess) : Option String × Sess :=
  let b := (popOk s.writeOks).1
  ((if b then none else some "write: broken pipe"),
   { s with writeOks := (popOk s.writeOks).2, trace := s.trace ++ [.write p b] })

/-- Modelled from the spec (§4.3): `c.recieve()` — the rendezvous receive
used by every query in `cmd.go` but defined in a source file missing from
`src/`.  It blocks for the next inbound frame and returns its raw text;
connection teardown (an exhausted inbox) wakes it with an error. -/
def recieve (s : Sess) : (String × Option String) × Sess :=
  match s.inbox with
  | [] => (("", some "EOF"), s)
  | f :: rest =>
    ((f.text, none),
     { s with inbox := rest, pos := s.pos + 1, trace := s.trace ++ [.recv s.pos] })

/-- `main.go` lines 59–62, `readPacket`: `websocket.JSON.Receive` — reads
the next frame and unmarshals it into a `packet`; on a decode failure the
frame is consumed and the packet keeps its zero value; on an exhausted
inbox the read fails with `EOF`. -/
def readPacket (s : Sess) : (packet × Option String) × Sess :=
  match s.inbox with
  | [] => ((zeroPacket, some "EOF"), s)
  | f :: rest =>
    let s' : Sess :=
      { s with inbox := rest, pos := s.pos + 1, trace := s.trace ++ [.read s.pos] }
    match f.dec with
    | some p => ((p, none), s')
    | none => ((zeroPacket, some "json: cannot unmarshal"), s')

/-- `cmd.go` lines 33–42, `appendMsg`: build the message directive and
write it; returns the write error. -/
def appendMsg (selector text : String) (s : Sess) : Option String × Sess :=
  writeJSON (msgPkt selector text) s

/-- `cmd.go` lines 44–57, `appendLink`. -/
def appendLink (selector url text : String) (s : Sess) : Option String × Sess :=
  writeJSON (linkPkt selector url text) s

/-- `cmd.go` lines 59–66, `appendBreak`. -/
def appendBreak (selector : String) (s : Sess) : Option String × Sess :=
  writeJSON (breakPkt selector) s

/-- `cmd.go` lines 69–75, `focus`. -/
def focus (selector value : String) (s : Sess) : Option String × Sess :=
  writeJSON (focusPkt selector value) s

/-- `cmd.go` lines 78–89, `exists` (`exists` is a Lean keyword, hence
`existsQ`): send the existence query; if the write succeeded, receive the
answer (the receive error is shadowed inside the `if` block and hence
swallowed) and report whether it is exactly `"true"`; any failure reports
`false`. -/
def existsQ (selector : String) (s : Sess) : Bool × Sess :=
  let w := writeJSON (existsPkt selector) s
  if w.1 = none then
    let r := recieve w.2
    ((if r.1.2 = none ∧ r.1.1 = "true" then true else false), r.2)
  else
    (false, w.2)

/-- `cmd.go` lines 92–98, `innerHTML`. -/
def innerHTML (selector value : String) (s : Sess) : Option String × Sess :=
  writeJSON (innerHTMLPkt selector value) s

/-- `cmd.go` lines 101–116, `getHTML`: check existence first; on a negative
answer return the error `"element does not exist"` without sending the
`getHTML` directive; otherwise send it and receive the content (the
receive's error is bound to a shadowing `e` inside the inner block, so a
failed receive still yields a `nil` outer error with an empty string). -/
def getHTML (selector : String) (s : Sess) : (String × Option String) × Sess :=
  let ex := existsQ selector s
  if ex.1 then
    let w := writeJSON (getHTMLPkt selector) ex.2
    if w.1 = none then
      let r := recieve w.2
      ((r.1.1, none), r.2)
    else
      (("", w.1), w.2)
  else
    (("", some "element does not exist"), ex.2)

/-- `cmd.go` lines 119–126, `setAttribute`. -/
def setAttribute (selector attr value : String) (s : Sess) : Option String × Sess :=
  writeJSON (setAttrPkt selector attr value) s

/-- `cmd.go` lines 129–141, `getAttribute`: send the query; on write
success receive the value (the receive error is shadowed and swallowed, so
the outer error stays `nil`; a failed receive leaves the returned string
empty); on write failure return the write error. -/
def getAttribute (selector attr : String) (s : Sess) : (String × Option String) × Sess :=
  let w := writeJSON (getAttrPkt selector attr) s
  if w.1 = none then
    let r := recieve w.2
    ((r.1.1, none), r.2)
  else
    (("", w.1), w.2)

/-- `cmd.go` lines 144–150, `setProperty`. -/
def setProperty (selector property value : String) (s : Sess) : Option String × Sess :=
  writeJSON (setPropPkt selector property value) s

/-- `cmd.go` lines 153–165, `getProperty`: same shadowed-receive shape as
`getAttribute`. -/
def getProperty (selector property : String) (s : Sess) : (String × Option String) × Sess :=
  let w := writeJSON (getPropPkt selector property) s
  if w.1 = none then
    let r := recieve w.2
    ((r.1.1, none), r.2)
  else
    (("", w.1), w.2)

/-- `cmd.go` lines 168–174, `editable`. -/
def editable (selector value : String) (s : Sess) : Option String × Sess :=
  writeJSON (editablePkt selector value) s

/-- `cmd.go` lines 177–188, `prompt`: send the text (or a default) as a
message, then receive the user's input.  `b, e := c.recieve()` reuses the
function-scoped named return `e`, so the message-write error is overwritten
and the receive is attempted even after a failed write; the receive's
result is what `prompt` returns. -/
def prompt (text : String) (s : Sess) : (String × Option String) × Sess :=
  let m :=
    if text.length > 0 then appendMsg "#msg-list" text s
    else appendMsg "#msg-list" "Enter some input:" s
  let r := recieve m.2
  ((r.1.1, r.1.2), r.2)

/-- `cmd.go` lines 191–201, `promptSecure`: read the prior `type`
attribute; if that succeeded, defer its restoration, switch the input to
`password`, and prompt; the deferred `setAttribute` restoring the prior
value runs on every path out of the `if` block, its own error
discarded. -/
def promptSecure (selector text : String) (s : Sess) : (String × Option String) × Sess :=
  let g := getAttribute selector "type" s
  if g.1.2 = none then
    let w := setAttribute selector "type" "password" g.2
    let p := if w.1 = none then prompt text w.2 else (("", w.1), w.2)
    let rst := setAttribute selector "type" g.1.1 p.2
    ((p.1.1, p.1.2), rst.2)
  else
    (("", g.1.2), g.2)

/-- The descriptions registered in `cmd.go`'s `init` (`cmdMap[k].Desc`). -/
def cmdDesc : String → Option String
  | "help" => some "help returns help information about available commands."
  | "clear" => some "clear the current terminal's content"
  | "login" => some "login lets you log into a registered user account."
  | "register" => some "register a user account"
  | _ => none

/-- The listing built by `help` with no argument: `for k := range cmdMap`
concatenates `" " + k`.  Go map iteration order is unspecified; the model
fixes registration order (the spec itself flags the listing order as
unstable). -/
def cmdListText : String :=
  "Available commands:" ++ " help" ++ " clear" ++ " login" ++ " register"

/-- `cmd.go` lines 211–231, the `help` handler. -/
def helpH (_env : Env) (args : List String) (s : Sess) : Option String × Sess :=
  match args with
  | [] => (none, s)
  | [_] => appendMsg "#msg-list" cmdListText s
  | _ :: a1 :: _ =>
    match cmdDesc a1 with
    | some d => appendMsg "#msg-list" d s
    | none => appendMsg "#msg-list" ("Command not available: " ++ a1) s

/-- `cmd.go` lines 246–254, the `clear` handler: fire-and-forget
`innerHTML`, its error discarded. -/
def clearH (_env : Env) (args : List String) (s : Sess) : Option String × Sess :=
  match args with
  | [] => (none, s)
  | _ :: _ => (none, (innerHTML "#msg-list" " " s).2)

/-- `cmd.go` lines 256–286, the `login` handler.  The binding
`pass, e := c.promptSecure(...)` shadows the handler's named return inside
its block, so every error produced on the password path (prompt, load,
result messages) is assigned to the shadowed variable and the handler
returns `nil` from that path; the usage / invalid-name / no-such-user
messages assign the named return.  `c.user.load(name, pass)` is modelled
from the spec: on success it replaces the session identity, on failure it
leaves it untouched. -/
def loginH (env : Env) (args : List String) (s : Sess) : Option String × Sess :=
  match args with
  | [] => (none, s)
  | [_] => appendMsg "#msg-list" "Usage: login <name>" s
  | _ :: name :: _ =>
    if env.isName name then
      if env.userExists name then
        let p := promptSecure "#msg-txt" "Please enter your password" s
        if p.1.2 = none ∧ p.1.1.length > 0 then
          match env.load name p.1.1 with
          | none => (none, (appendMsg "#msg-list" "Login failed" p.2).2)
          | some u =>
            let s1 : Sess := { p.2 with user := u }
            (none, (appendMsg "#msg-list" ("Welcome back, " ++ s1.user.Name) s1).2)
        else
          (none, p.2)
      else
        appendMsg "#msg-list" "User does not exist" s
    else
      appendMsg "#msg-list" "Invalid characters in name" s

/-- `user.save(name, pass)` as called by `register` (`cmd.go` line 301):
the persistence call of the external store.  The call is recorded in the
session's `saves` log and its error outcome is supplied by the
environment. -/
def userSave (env : Env) (name pass : String) (s : Sess) : Option String × Sess :=
  (env.saveErr name pass, { s with saves := s.saves ++ [(name, pass)] })

/-- `cmd.go` lines 287–322, the `register` handler.  `email, e := c.prompt(...)`
shadows the named return inside the valid-name block, so everything from
the email prompt onward (including the save result messages and the
password-mismatch message) assigns the shadowed variable and the handler
returns `nil` from those paths; only the usage and invalid-name messages
assign the named return.  Note that `c.user.Email` and `c.user.Name` are
assigned *before* the persistence call. -/
def registerH (env : Env) (args : List String) (s : Sess) : Option String × Sess :=
  match args with
  | [] => appendMsg "#msg-list" "Usage: register <name>" s
  | [_] => appendMsg "#msg-list" "Usage: register <name>" s
  | _ :: name :: _ =>
    if env.isName name then
      let em := prompt "Enter your email address" s
      if em.1.2 = none ∧ env.isEmail em.1.1 then
        let p1 := promptSecure "#msg-txt" "Enter a good password" em.2
        if p1.1.2 = none then
          let p2 := promptSecure "#msg-txt" "Re-enter your password" p1.2
          if p2.1.2 = none ∧ p1.1.1 = p2.1.1 then
            let s1 : Sess := { p2.2 with user := { Name := name, Email := em.1.1 } }
            let sv := userSave env name p1.1.1 s1
            match sv.1 with
            | none =>
              (none, (appendMsg "#msg-list"
                "User account created (don't forget your password!)" sv.2).2)
            | some msg => (none, (appendMsg "#msg-list" msg sv.2).2)
          else
            (none, (appendMsg "#msg-list" "Failed! Passwords did not match" p2.2).2)
        else
          (none, p1.2)
      else
        (none, (appendMsg "#msg-list" "Bad email address" em.2).2)
    else
      appendMsg "#msg-list" "Invalid characters in name" s

/-- `cmd.go`'s `cmdMap` after `init` (lines 208–322): the process-wide
command registry, a read-only name → handler lookup.  `main.go`'s listener
passes the whole packet to a handler; `cmd.go`'s handlers consume its
argument list, so a handler here takes `p.Args`. -/
def cmdLookup : String → Option (Env → List String → Sess → Option String × Sess)
  | "help" => some helpH
  | "clear" => some clearH
  | "login" => some loginH
  | "register" => some registerH
  | _ => none

/-- `main.go` lines 76–90, the read-dispatch loop, with an explicit fuel
(the loop consumes at least one inbound frame per iteration, so
`inbox.length + 1` fuel runs it to its natural end; see `listener`).
Faithful to the source: `if p, e := c.readPacket(); ...` declares an `e`
that shadows the listener's named return, so a handler's (or the
command-not-found write's) error lands in the shadowed variable, the loop
keeps running after it, and the listener's own result is the
never-assigned named return `nil`. -/
def listenerFuel (env : Env) : Nat → Sess → Option String × Sess
  | 0, s => (none, s)
  | fuel + 1, s =>
    let rp := readPacket s
    if rp.1.2 = none then
      match rp.1.1.Args with
      | [] => (none, rp.2)
      | a :: _ =>
        match cmdLookup a with
        | some h => listenerFuel env fuel (h env rp.1.1.Args rp.2).2
        | none =>
          listenerFuel env fuel
            (appendMsg "#msgList" (a ++ ": command not found ") rp.2).2
    else
      (none, rp.2)

/-- `main.go` `listener`, run to its natural termination: every iteration
consumes at least one inbound frame, so `inbox.length + 1` fuel is enough
for the loop to reach its own exit (read failure or empty argument
list). -/
def listener (env : Env) (s : Sess) : Option String × Sess :=
  listenerFuel env (s.inbox.length + 1) s

/-- The inbound frame index consumed by an event, if any. -/
def evIdx : Ev → Option Nat
  | .read i => some i
  | .recv i => some i
  | .write _ _ => none

/-- All frame indices consumed in a trace, in order (by the read loop or
by a pending query's receive). -/
def consumption (tr : List Ev) : List Nat := tr.filterMap evIdx

/-- Frame indices consumed as query answers by `recieve`. -/
def recvIdxs (tr : List Ev) : List Nat :=
  tr.filterMap fun e => match e with | .recv i => some i | _ => none

/-- Frame indices consumed by the read loop's `readPacket`. -/
def readIdxs (tr : List Ev) : List Nat :=
  tr.filterMap fun e => match e with | .read i => some i | _ => none

/-- `SessExt s s'`: session state `s'` extends `s` by consuming the next `k`
inbound frames — in order, each exactly once, with no skipping — while
possibly writing directives.  This is the strict-FIFO invariant every
piece of the embedded code preserves. -/
def SessExt (s s' : Sess) : Prop :=
  ∃ k, s'.pos = s.pos + k ∧ s'.inbox = s.inbox.drop k ∧
    consumption s'.trace = consumption s.trace ++ List.range' s.pos k

theorem SessExt.same {s s' : Sess} (hp : s'.pos = s.pos) (hi : s'.inbox = s.inbox)
    (ht : consumption s'.trace = consumption s.trace) : SessExt s s' :=
  ⟨0, by simpa using hp, by simpa using hi, by simpa [List.range'_zero] using ht⟩

theorem SessExt.refl (s : Sess) : SessExt s s := SessExt.same rfl rfl rfl

theorem SessExt.trans {s1 s2 s3 : Sess} (h1 : SessExt s1 s2) (h2 : SessExt s2 s3) : SessExt s1 s3 := by
  obtain ⟨k1, hp1, hi1, hc1⟩ := h1
  obtain ⟨k2, hp2, hi2, hc2⟩ := h2
  refine ⟨k1 + k2, by omega, ?_, ?_⟩
  · rw [hi2, hi1, List.drop_drop]
  · rw [hc2, hc1, hp1, List.append_assoc]
    have h := List.range'_append s1.pos k1 k2 1
    simp only [one_mul, List.range'] at h
    rw [h, Nat.add_comm k2 k1]

theorem consumption_append (tr tr' : List Ev) :
    consumption (tr ++ tr') = consumption tr ++ consumption tr' :=
  List.filterMap_append tr tr' evIdx

theorem ext_writeJSON (p : dpacket) (s : Sess) : SessExt s (writeJSON p s).2 := by
  refine SessExt.same rfl rfl ?_
  simp [writeJSON, consumption_append, consumption, evIdx]

theorem ext_recieve (s : Sess) : SessExt s (recieve s).2 := by
  obtain ⟨inbox, pos, wo, tr, u, sv⟩ := s
  cases inbox with
  | nil => exact SessExt.refl _
  | cons f rest =>
    refine ⟨1, rfl, rfl, ?_⟩
    simp [recieve, consumption_append, consumption, evIdx, List.range'_one]

theorem ext_readPacket (s : Sess) : SessExt s (readPacket s).2 := by
  obtain ⟨inbox, pos, wo, tr, u, sv⟩ := s
  cases inbox with
  | nil => exact SessExt.refl _
  | cons f rest =>
    cases hf : f.dec with
    | some p =>
      refine ⟨1, ?_, ?_, ?_⟩ <;>
        simp [readPacket, hf, consumption_append, consumption, evIdx, List.range'_one]
    | none =>
      refine ⟨1, ?_, ?_, ?_⟩ <;>
        simp [readPacket, hf, consumption_append, consumption, evIdx, List.range'_one]

theorem ext_appendMsg (sel t : String) (s : Sess) : SessExt s (appendMsg sel t s).2 :=
  ext_writeJSON _ _

theorem ext_innerHTML (sel v : String) (s : Sess) : SessExt s (innerHTML sel v s).2 :=
  ext_writeJSON _ _

theorem ext_setAttribute (sel a v : String) (s : Sess) : SessExt s (setAttribute sel a v s).2 :=
  ext_writeJSON _ _

theorem ext_getAttribute (sel a : String) (s : Sess) : SessExt s (getAttribute sel a s).2 := by
  dsimp only [getAttribute]
  split
  · exact (ext_writeJSON _ _).trans (ext_recieve _)
  · exact ext_writeJSON _ _

theorem ext_existsQ (sel : String) (s : Sess) : SessExt s (existsQ sel s).2 := by
  dsimp only [existsQ]
  split
  · exact (ext_writeJSON _ _).trans (ext_recieve _)
  · exact ext_writeJSON _ _

theorem ext_getHTML (sel : String) (s : Sess) : SessExt s (getHTML sel s).2 := by
  dsimp only [getHTML]
  split
  · split
    · exact ((ext_existsQ _ _).trans (ext_writeJSON _ _)).trans (ext_recieve _)
    · exact (ext_existsQ _ _).trans (ext_writeJSON _ _)
  · exact ext_existsQ _ _

theorem ext_prompt (t : String) (s : Sess) : SessExt s (prompt t s).2 := by
  dsimp only [prompt]
  split
  · exact (ext_appendMsg _ _ _).trans (ext_recieve _)
  · exact (ext_appendMsg _ _ _).trans (ext_recieve _)

theorem ext_promptSecure (sel t : String) (s : Sess) : SessExt s (promptSecure sel t s).2 := by
  dsimp only [promptSecure]
  split
  · refine SessExt.trans ?_ (ext_setAttribute _ _ _ _)
    split
    · exact ((ext_getAttribute _ _ _).trans (ext_setAttribute _ _ _ _)).trans (ext_prompt _ _)
    · exact (ext_getAttribute _ _ _).trans (ext_setAttribute _ _ _ _)
  · exact ext_getAttribute _ _ _

theorem ext_helpH (env : Env) (args : List String) (s : Sess) :
    SessExt s (helpH env args s).2 := by
  dsimp only [helpH]
  split
  · exact SessExt.refl _
  · exact ext_appendMsg _ _ _
  · split
    · exact ext_appendMsg _ _ _
    · exact ext_appendMsg _ _ _

theorem ext_clearH (env : Env) (args : List String) (s : Sess) :
    SessExt s (clearH env args s).2 := by
  dsimp only [clearH]
  split
  · exact SessExt.refl _
  · exact ext_innerHTML _ _ _

theorem ext_setUser (s : Sess) (u : User) : SessExt s { s with user := u } :=
  SessExt.same rfl rfl rfl

theorem ext_userSave (env : Env) (n p : String) (s : Sess) :
    SessExt s (userSave env n p s).2 :=
  SessExt.same rfl rfl (by simp [userSave])

theorem ext_loginH (env : Env) (args : List String) (s : Sess) :
    SessExt s (loginH env args s).2 := by
  dsimp only [loginH]
  split
  · exact SessExt.refl _
  · exact ext_appendMsg _ _ _
  · split
    · split
      · split
        · split
          · exact (ext_promptSecure _ _ _).trans (ext_appendMsg _ _ _)
          · exact ((ext_promptSecure _ _ _).trans (ext_setUser _ _)).trans (ext_appendMsg _ _ _)
        · exact ext_promptSecure _ _ _
      · exact ext_appendMsg _ _ _
    · exact ext_appendMsg _ _ _

theorem ext_registerH (env : Env) (args : List String) (s : Sess) :
    SessExt s (registerH env args s).2 := by
  dsimp only [registerH]
  split
  · exact ext_appendMsg _ _ _
  · exact ext_appendMsg _ _ _
  · split
    · split
      · split
        · split
          · split
            · exact ((((ext_prompt _ _).trans (ext_promptSecure _ _ _)).trans
                ((ext_promptSecure _ _ _).trans (ext_setUser _ _))).trans
                (ext_userSave _ _ _ _)).trans (ext_appendMsg _ _ _)
            · exact ((((ext_prompt _ _).trans (ext_promptSecure _ _ _)).trans
                ((ext_promptSecure _ _ _).trans (ext_setUser _ _))).trans
                (ext_userSave _ _ _ _)).trans (ext_appendMsg _ _ _)
          · exact (((ext_prompt _ _).trans (ext_promptSecure _ _ _)).trans
              (ext_promptSecure _ _ _)).trans (ext_appendMsg _ _ _)
        · exact (ext_prompt _ _).trans (ext_promptSecure _ _ _)
      · exact (ext_prompt _ _).trans (ext_appendMsg _ _ _)
    · exact ext_appendMsg _ _ _

theorem ext_cmdLookup (a : String)
    (h : Env → List String → Sess → Option String × Sess)
    (hl : cmdLookup a = some h) (env : Env) (args : List String) (s : Sess) :
    SessExt s (h env args s).2 := by
  unfold cmdLookup at hl
  split at hl <;> first
    | (injection hl with he; subst he; first
        | exact ext_helpH env args s
        | exact ext_clearH env args s
        | exact ext_loginH env args s
        | exact ext_registerH env args s)
    | simp at hl

theorem ext_listenerFuel (env : Env) (fuel : Nat) (s : Sess) :
    SessExt s (listenerFuel env fuel s).2 := by
  induction fuel generalizing s with
  | zero => exact SessExt.refl _
  | succ n ih =>
    dsimp only [listenerFuel]
    split
    · split
      · exact ext_readPacket _
      · split
        · rename_i a rest h hl
          exact ((ext_readPacket _).trans (ext_cmdLookup _ _ hl env _ _)).trans (ih _)
        · exact ((ext_readPacket _).trans (ext_appendMsg _ _ _)).trans (ih _)
    · exact ext_readPacket _

theorem count_consumption (i : Nat) (tr : List Ev) :
    (consumption tr).count i = (recvIdxs tr).count i + (readIdxs tr).count i := by
  induction tr with
  | nil => rfl
  | cons e tr ih =>
    cases e with
    | write p ok =>
      simpa [consumption, recvIdxs, readIdxs, List.filterMap_cons, evIdx] using ih
    | read j =>
      simp only [consumption, recvIdxs, readIdxs, List.filterMap_cons, evIdx] at ih ⊢
      simp [List.count_cons, ih]
      omega
    | recv j =>
      simp only [consumption, recvIdxs, readIdxs, List.filterMap_cons, evIdx] at ih ⊢
      simp [List.count_cons, ih]
      omega

theorem recv_not_read (tr : List Ev) (hnd : (consumption tr).Nodup) :
    ∀ i ∈ recvIdxs tr, i ∉ readIdxs tr := by
  intro i hrecv hread
  have h1 : 0 < (recvIdxs tr).count i := List.count_pos_iff.mpr hrecv
  have h2 : 0 < (readIdxs tr).count i := List.count_pos_iff.mpr hread
  have h3 : (consumption tr).count i ≤ 1 := List.nodup_iff_count_le_one.mp hnd i
  have h4 := count_consumption i tr
  omega

theorem ext_listener (env : Env) (s : Sess) : SessExt s (listener env s).2 :=
  ext_listenerFuel env _ s

/-- A freshly accepted session (`wsHandler`, `main.go` lines 104–118): the
given inbound stream, nothing consumed, an empty trace, the zero user
identity, no persistence calls. -/
def initSess (inbox : List Frame) (wo : List Bool) (u : User) : Sess :=
  ⟨inbox, 0, wo, [], u, []⟩

/-- **C1** — For every session in which a handler has sent a query
directive (`exists`, `getHTML`, `getAttribute`, `getProperty`, `prompt`)
and is awaiting its reply, the next inbound message is consumed by that
handler's `recieve` as the query's answer and is never dispatched by the
read loop as a new command, even if its content equals a registered
command name.  Formally: over a whole `listener` run from a fresh session,
the indices of the inbound frames consumed (whether by the loop's
`readPacket` or by a pending query's `recieve`) form exactly
`[0, 1, …, pos-1]` in order — every frame is consumed exactly once, with
no skipping, so the frame after a query send is exactly the one `recieve`
hands to the waiting handler — and the set of reply-consumed indices is
disjoint from the set of command-read indices: no frame taken as a query
answer is ever also read (hence never dispatched) by the loop, whatever
its content. -/
theorem listener_fifo_handoff (env : Env) (inbox : List Frame) (wo : List Bool) (u : User) :
    consumption ((listener env (initSess inbox wo u)).2).trace =
      List.range ((listener env (initSess inbox wo u)).2).pos ∧
    recvIdxs ((listener env (initSess inbox wo u)).2).trace ∩
      readIdxs ((listener env (initSess inbox wo u)).2).trace = [] := by
  obtain ⟨k, hp, hi, hc⟩ := ext_listener env (initSess inbox wo u)
  have htrace : consumption ((listener env (initSess inbox wo u)).2).trace =
      List.range' 0 k := by
    simpa [initSess, consumption] using hc
  have hpos : ((listener env (initSess inbox wo u)).2).pos = k := by
    simpa [initSess] using hp
  have hrange : consumption ((listener env (initSess inbox wo u)).2).trace =
      List.range ((listener env (initSess inbox wo u)).2).pos := by
    rw [htrace, hpos, List.range_eq_range']
  refine ⟨hrange, ?_⟩
  rw [List.inter_eq_nil_iff_disjoint]
  intro i h1 h2
  have hnd : (consumption ((listener env (initSess inbox wo u)).2).trace).Nodup := by
    rw [hrange]
    exact List.nodup_range _
  exact recv_not_read _ hnd i h1 h2

/-- **C2** — For every inbound command packet whose first argument is not a
key of the command registry, the dispatcher sends the
`"<name>: command not found "` message to the client and the read loop
continues: the run of `listener` on such a frame equals one
`readPacket`-plus-message step followed by the `listener` run on the rest
of the stream, so the session remains alive and processes subsequent
commands. -/
theorem dispatch_unknown_continues (env : Env) (p : packet) (a : String)
    (args' : List String) (rest : List Frame) (pos : Nat) (wo : List Bool)
    (tr : List Ev) (u : User) (sv : List (String × String))
    (hargs : p.Args = a :: args') (hmiss : cmdLookup a = none) :
    listener env ⟨Frame.fcmd p :: rest, pos, wo, tr, u, sv⟩ =
      listener env ⟨rest, pos + 1, (popOk wo).2,
        tr ++ [.read pos, .write (msgPkt "#msgList" (a ++ ": command not found ")) (popOk wo).1],
        u, sv⟩ := by
  simp only [listener, List.length_cons]
  rw [listenerFuel]
  simp [readPacket, Frame.dec, hargs, hmiss, appendMsg, writeJSON]

/-- **C9** — For every inbound message that decodes successfully into a
packet whose args list is empty, the read loop terminates, ending the
session, without dispatching any command and without sending any message
to the client: the run ends at once with a `nil` result, the only new
event being the read itself. -/
theorem empty_args_terminates (env : Env) (p : packet) (rest : List Frame)
    (pos : Nat) (wo : List Bool) (tr : List Ev) (u : User)
    (sv : List (String × String)) (hargs : p.Args = []) :
    listener env ⟨Frame.fcmd p :: rest, pos, wo, tr, u, sv⟩ =
      (none, ⟨rest, pos + 1, wo, tr ++ [.read pos], u, sv⟩) := by
  simp only [listener, List.length_cons]
  rw [listenerFuel]
  simp [readPacket, Frame.dec, hargs]

/-- A minimal environment for concrete runs that never reach the user
store: every name and email valid, no account exists, loads fail, saves
succeed. -/
def envTriv : Env :=
  ⟨fun _ => true, fun _ => true, fun _ => false, fun _ _ => none, fun _ _ => none⟩

/-- **C3** — the claim says a handler's transport (write) error propagates
to the session level and terminates the read loop.  The code does the
opposite: in `listener` (`main.go` line 78) the statement
`if p, e := c.readPacket(); …` declares an `e` that shadows the listener's
named return, so `e = cmd.Handler(c, p)` (line 80) assigns the shadowed
variable; the loop neither tests it nor stops, and the function's own
result is the never-assigned `nil`.  Concretely: with the transport
failing on the `help` handler's write, the session still goes on to read
and dispatch the following `clear` command and the listener returns `nil`
— the handler's transport error neither propagates nor terminates the
loop. -/
theorem handler_write_error_swallowed :
    listener envTriv
      (initSess [Frame.fcmd ⟨"", ["help"], []⟩, Frame.fcmd ⟨"", ["clear"], []⟩]
        [false] ⟨"", ""⟩) =
    (none,
     ⟨[], 2, [],
      [.read 0, .write (msgPkt "#msg-list" cmdListText) false,
       .read 1, .write (innerHTMLPkt "#msg-list" " ") true],
      ⟨"", ""⟩, []⟩) := by
  decide

theorem trace_writeJSON (p : dpacket) (s : Sess) :
    ((writeJSON p s).2).trace = s.trace ++ [Ev.write p (popOk s.writeOks).1] := rfl

theorem trace_recieve (s : Sess) :
    ∃ suf, ((recieve s).2).trace = s.trace ++ suf := by
  obtain ⟨inbox, pos, wo, tr, u, sv⟩ := s
  cases inbox with
  | nil => exact ⟨[], by simp [recieve]⟩
  | cons f rest => exact ⟨[Ev.recv pos], by simp [recieve]⟩

theorem trace_existsQ (sel : String) (s : Sess) :
    ∃ suf, ((existsQ sel s).2).trace =
      s.trace ++ [Ev.write (existsPkt sel) (popOk s.writeOks).1] ++ suf := by
  dsimp only [existsQ]
  split
  · obtain ⟨suf, hr⟩ := trace_recieve (writeJSON (existsPkt sel) s).2
    exact ⟨suf, by rw [hr, trace_writeJSON]⟩
  · exact ⟨[], by rw [trace_writeJSON]; simp⟩

/-- **C10** — For every call of `getHTML`, an `exists` query for the
selector is issued first (the first new trace event is the `exists`
directive's write); when that query answers `false`, `getHTML` returns the
error `"element does not exist"` without ever sending the `getHTML`
directive (the session state is exactly the post-`exists` state); and it
returns a non-error result only after the `exists` query answered
`true`. -/
theorem getHTML_guarded_by_exists (sel : String) (s : Sess) :
    (∃ suf, ((getHTML sel s).2).trace =
       s.trace ++ [Ev.write (existsPkt sel) (popOk s.writeOks).1] ++ suf) ∧
    ((existsQ sel s).1 = false →
       getHTML sel s = (("", some "element does not exist"), (existsQ sel s).2)) ∧
    ((getHTML sel s).1.2 = none → (existsQ sel s).1 = true) := by
  refine ⟨?_, ?_, ?_⟩
  · dsimp only [getHTML]
    split
    · split
      · obtain ⟨suf0, hex⟩ := trace_existsQ sel s
        obtain ⟨suf, hr⟩ := trace_recieve (writeJSON (getHTMLPkt sel) (existsQ sel s).2).2
        refine ⟨suf0 ++ [Ev.write (getHTMLPkt sel) (popOk ((existsQ sel s).2).writeOks).1] ++ suf, ?_⟩
        rw [hr, trace_writeJSON, hex]
        simp
      · obtain ⟨suf0, hex⟩ := trace_existsQ sel s
        refine ⟨suf0 ++ [Ev.write (getHTMLPkt sel) (popOk ((existsQ sel s).2).writeOks).1], ?_⟩
        rw [trace_writeJSON, hex]
        simp
    · obtain ⟨suf0, hex⟩ := trace_existsQ sel s
      exact ⟨suf0, hex⟩
  · intro hfalse
    dsimp only [getHTML]
    rw [hfalse]
    simp
  · intro hnone
    dsimp only [getHTML] at hnone
    by_contra hne
    rw [Bool.not_eq_true] at hne
    rw [hne] at hnone
    simp at hnone

theorem trace_setAttribute (sel a v : String) (s : Sess) :
    ((setAttribute sel a v s).2).trace =
      s.trace ++ [Ev.write (setAttrPkt sel a v) (popOk s.writeOks).1] :=
  rfl

theorem trace_appendMsg (sel t : String) (s : Sess) :
    ((appendMsg sel t s).2).trace = s.trace ++ [Ev.write (msgPkt sel t) (popOk s.writeOks).1] :=
  rfl

theorem trace_getAttribute (sel a : String) (s : Sess) :
    ∃ suf, ((getAttribute sel a s).2).trace = s.trace ++ suf := by
  dsimp only [getAttribute]
  split
  · obtain ⟨suf, hr⟩ := trace_recieve (writeJSON (getAttrPkt sel a) s).2
    exact ⟨[Ev.write (getAttrPkt sel a) (popOk s.writeOks).1] ++ suf,
      by rw [hr, trace_writeJSON]; simp⟩
  · exact ⟨_, trace_writeJSON _ _⟩

theorem trace_prompt (t : String) (s : Sess) :
    ∃ suf, ((prompt t s).2).trace = s.trace ++ suf := by
  dsimp only [prompt]
  split
  · obtain ⟨suf, hr⟩ := trace_recieve (appendMsg "#msg-list" t s).2
    exact ⟨[Ev.write (msgPkt "#msg-list" t) (popOk s.writeOks).1] ++ suf,
      by rw [hr, trace_appendMsg]; simp⟩
  · obtain ⟨suf, hr⟩ := trace_recieve (appendMsg "#msg-list" "Enter some input:" s).2
    exact ⟨[Ev.write (msgPkt "#msg-list" "Enter some input:") (popOk s.writeOks).1] ++ suf,
      by rw [hr, trace_appendMsg]; simp⟩

/-- **C4** — For every call of `promptSecure` in which the initial
`getAttribute` of the target element's `type` attribute succeeds (returns
a `nil` error), the prior attribute value — the value that `getAttribute`
returned — is restored by a `setAttribute` after the prompt resolves, on
every path out of `promptSecure`: whatever the outcome of setting the
attribute to `"password"` or of the prompt itself, the deferred restore is
the final write attempt of the call, carrying exactly the prior value. -/
theorem promptSecure_restores (sel text : String) (s : Sess)
    (h : (getAttribute sel "type" s).1.2 = none) :
    ∃ pre b, ((promptSecure sel text s).2).trace =
      s.trace ++ pre ++
        [Ev.write (setAttrPkt sel "type" (getAttribute sel "type" s).1.1) b] := by
  dsimp only [promptSecure]
  split
  · obtain ⟨suf1, hg⟩ := trace_getAttribute sel "type" s
    split
    · obtain ⟨suf2, hp⟩ :=
        trace_prompt text (setAttribute sel "type" "password" (getAttribute sel "type" s).2).2
      refine ⟨suf1 ++ [Ev.write (setAttrPkt sel "type" "password")
          (popOk ((getAttribute sel "type" s).2).writeOks).1] ++ suf2,
        (popOk ((prompt text
          (setAttribute sel "type" "password" (getAttribute sel "type" s).2).2).2).writeOks).1, ?_⟩
      dsimp only
      rw [trace_setAttribute, hp, trace_setAttribute, hg]
      simp
    · refine ⟨suf1 ++ [Ev.write (setAttrPkt sel "type" "password")
          (popOk ((getAttribute sel "type" s).2).writeOks).1],
        (popOk ((setAttribute sel "type" "password"
          (getAttribute sel "type" s).2).2).writeOks).1, ?_⟩
      dsimp only
      rw [trace_setAttribute, trace_setAttribute, hg]
      simp
  · rename_i hne
    exact absurd h hne

/-- **C6** — For every execution of the `login` handler with a well-formed
name for which no account exists in the user store, the handler sends the
`"User does not exist"` message and never issues the masked password
prompt: the resulting state is exactly the input state plus that one
message write — no `getAttribute`/`setAttribute`/prompt directive is sent
and no inbound frame is consumed. -/
theorem login_no_user (env : Env) (a0 name : String) (rest : List String) (s : Sess)
    (hn : env.isName name = true) (hx : env.userExists name = false) :
    loginH env (a0 :: name :: rest) s =
      ((if (popOk s.writeOks).1 then none else some "write: broken pipe"),
       { s with writeOks := (popOk s.writeOks).2,
                trace := s.trace ++
                  [Ev.write (msgPkt "#msg-list" "User does not exist") (popOk s.writeOks).1] }) := by
  dsimp only [loginH]
  rw [hn, hx]
  simp [appendMsg, writeJSON]

/-- **C5** — For every execution of the `register` handler in which both
password prompts succeed but the two entered passwords differ, the
persistence call (`user.save`) is never invoked and the client is sent the
`"Failed! Passwords did not match"` message.  The inbound stream supplies
the email reply, then for each masked prompt the `getAttribute` reply and
the password reply; all transport writes succeed. -/
theorem register_password_mismatch (env : Env) (a0 name email at1 p1 at2 p2 : String)
    (rest : List String) (tailFrames : List Frame) (pos : Nat) (tr : List Ev)
    (u : User) (sv : List (String × String))
    (hn : env.isName name = true) (he : env.isEmail email = true) (hne : p1 ≠ p2) :
    ((registerH env (a0 :: name :: rest)
        ⟨Frame.raw email :: Frame.raw at1 :: Frame.raw p1 ::
           Frame.raw at2 :: Frame.raw p2 :: tailFrames, pos, [], tr, u, sv⟩).2).saves = sv ∧
    Ev.write (msgPkt "#msg-list" "Failed! Passwords did not match") true ∈
      ((registerH env (a0 :: name :: rest)
        ⟨Frame.raw email :: Frame.raw at1 :: Frame.raw p1 ::
           Frame.raw at2 :: Frame.raw p2 :: tailFrames, pos, [], tr, u, sv⟩).2).trace := by
  have h1 : ("Enter your email address" : String).length > 0 := by decide
  have h2 : ("Enter a good password" : String).length > 0 := by decide
  have h3 : ("Re-enter your password" : String).length > 0 := by decide
  dsimp only [registerH]
  rw [hn]
  simp [prompt, promptSecure, getAttribute, setAttribute, appendMsg, writeJSON,
    recieve, Frame.text, popOk, h1, h2, h3, he, hne]

theorem user_writeJSON (p : dpacket) (s : Sess) : ((writeJSON p s).2).user = s.user := rfl

theorem saves_writeJSON (p : dpacket) (s : Sess) : ((writeJSON p s).2).saves = s.saves := rfl

theorem user_recieve (s : Sess) : ((recieve s).2).user = s.user := by
  obtain ⟨inbox, pos, wo, tr, u, sv⟩ := s
  cases inbox <;> rfl

theorem saves_recieve (s : Sess) : ((recieve s).2).saves = s.saves := by
  obtain ⟨inbox, pos, wo, tr, u, sv⟩ := s
  cases inbox <;> rfl

theorem user_getAttribute (sel a : String) (s : Sess) :
    ((getAttribute sel a s).2).user = s.user := by
  dsimp only [getAttribute]
  split
  · rw [user_recieve, user_writeJSON]
  · rw [user_writeJSON]

theorem saves_getAttribute (sel a : String) (s : Sess) :
    ((getAttribute sel a s).2).saves = s.saves := by
  dsimp only [getAttribute]
  split
  · rw [saves_recieve, saves_writeJSON]
  · rw [saves_writeJSON]

theorem user_appendMsg (sel t : String) (s : Sess) :
    ((appendMsg sel t s).2).user = s.user := rfl

theorem saves_appendMsg (sel t : String) (s : Sess) :
    ((appendMsg sel t s).2).saves = s.saves := rfl

theorem user_setAttribute (sel a v : String) (s : Sess) :
    ((setAttribute sel a v s).2).user = s.user := rfl

theorem saves_setAttribute (sel a v : String) (s : Sess) :
    ((setAttribute sel a v s).2).saves = s.saves := rfl

theorem user_prompt (t : String) (s : Sess) : ((prompt t s).2).user = s.user := by
  dsimp only [prompt]
  split <;> rw [user_recieve, user_appendMsg]

theorem saves_prompt (t : String) (s : Sess) : ((prompt t s).2).saves = s.saves := by
  dsimp only [prompt]
  split <;> rw [saves_recieve, saves_appendMsg]

theorem user_promptSecure (sel t : String) (s : Sess) :
    ((promptSecure sel t s).2).user = s.user := by
  dsimp only [promptSecure]
  split
  · dsimp only
    rw [user_setAttribute]
    split
    · rw [user_prompt, user_setAttribute, user_getAttribute]
    · rw [user_setAttribute, user_getAttribute]
  · rw [user_getAttribute]

theorem saves_promptSecure (sel t : String) (s : Sess) :
    ((promptSecure sel t s).2).saves = s.saves := by
  dsimp only [promptSecure]
  split
  · dsimp only
    rw [saves_setAttribute]
    split
    · rw [saves_prompt, saves_setAttribute, saves_getAttribute]
    · rw [saves_setAttribute, saves_getAttribute]
  · rw [saves_getAttribute]

theorem saves_userSave (env : Env) (n p : String) (s : Sess) :
    ((userSave env n p s).2).saves = s.saves ++ [(n, p)] := rfl

/-- **C8 (amended)** — Identity mutation in the flow handlers: for `login`,
any execution that changes the session's user identity is one that
completed successfully (the `"Welcome back, …"` confirmation for the new
identity was written), so every unsuccessful login leaves the identity
unchanged; for `register`, any execution that never reached the
persistence call (its `saves` log is unchanged) leaves the identity
unchanged.  (As stated in the claim the property fails for `register` when
only the persistence call itself fails, because `c.user.Email`/`c.user.Name`
are assigned before `user.save` — see the counterexample.) -/
theorem identity_set_only_on_completion (env : Env) (args : List String) (s : Sess) :
    (((loginH env args s).2).user ≠ s.user →
      ∃ b, Ev.write
          (msgPkt "#msg-list" ("Welcome back, " ++ ((loginH env args s).2).user.Name)) b ∈
        ((loginH env args s).2).trace) ∧
    (((registerH env args s).2).saves = s.saves →
      ((registerH env args s).2).user = s.user) := by
  constructor
  · dsimp only [loginH]
    split
    · intro hne; exact absurd rfl hne
    · intro hne; rw [user_appendMsg] at hne; exact absurd rfl hne
    · split
      · split
        · split
          · split
            · intro hne
              rw [user_appendMsg, user_promptSecure] at hne
              exact absurd rfl hne
            · rename_i u hu
              intro hne
              refine ⟨(popOk ((promptSecure "#msg-txt"
                  "Please enter your password" s).2).writeOks).1, ?_⟩
              rw [user_appendMsg, trace_appendMsg]
              simp
          · intro hne; rw [user_promptSecure] at hne; exact absurd rfl hne
        · intro hne; rw [user_appendMsg] at hne; exact absurd rfl hne
      · intro hne; rw [user_appendMsg] at hne; exact absurd rfl hne
  · dsimp only [registerH]
    split
    · intro _; exact user_appendMsg _ _ _
    · intro _; exact user_appendMsg _ _ _
    · split
      · split
        · split
          · split
            · split
              · intro hsv
                exfalso
                rw [saves_appendMsg, saves_userSave, saves_promptSecure,
                  saves_promptSecure, saves_prompt] at hsv
                have := congrArg List.length hsv
                simp at this
              · intro hsv
                exfalso
                rw [saves_appendMsg, saves_userSave, saves_promptSecure,
                  saves_promptSecure, saves_prompt] at hsv
                have := congrArg List.length hsv
                simp at this
            · intro _
              rw [user_appendMsg, user_promptSecure, user_promptSecure, user_prompt]
          · intro _
            rw [user_promptSecure, user_prompt]
        · intro _
          rw [user_appendMsg, user_prompt]
      · intro _
        exact user_appendMsg _ _ _

/-- An environment whose user store fails every `save` with `"disk full"`
(names and emails valid, no accounts, loads fail). -/
def envSaveFail : Env :=
  ⟨fun _ => true, fun _ => true, fun _ => false, fun _ _ => none, fun _ _ => some "disk full"⟩

/-- An environment where every account exists and every load succeeds as
the user `alice`. -/
def envLoadOk : Env :=
  ⟨fun _ => true, fun _ => true, fun _ => true,
   fun _ _ => some ⟨"alice", "a@x.com"⟩, fun _ _ => none⟩

/-- **C8 (counterexample)** — a `register` run in which both prompts
succeed and the passwords match, but the persistence call fails
(`user.save` returns `"disk full"`, which the handler reports to the
client): the flow did not complete successfully, yet the session's
identity was changed from the zero user to `bob` — `c.user.Email` and
`c.user.Name` are assigned *before* `user.save` (`cmd.go` lines 299–301),
so the claim fails as stated. -/
theorem register_save_failure_mutates_identity :
    ((registerH envSaveFail ["register", "bob"]
        (initSess [Frame.raw "b@x.com", Frame.raw "text", Frame.raw "p1",
                   Frame.raw "text", Frame.raw "p1"] [] ⟨"", ""⟩)).2).user =
      ⟨"bob", "b@x.com"⟩ ∧
    (⟨"bob", "b@x.com"⟩ : User) ≠ (⟨"", ""⟩ : User) ∧
    Ev.write (msgPkt "#msg-list" "disk full") true ∈
      ((registerH envSaveFail ["register", "bob"]
        (initSess [Frame.raw "b@x.com", Frame.raw "text", Frame.raw "p1",
                   Frame.raw "text", Frame.raw "p1"] [] ⟨"", ""⟩)).2).trace := by
  decide

/-- Witness for `dispatch_unknown_continues`: a concrete unknown command
(`frobnicate`) on a fresh session. -/
theorem dispatch_unknown_continues_witness :
    listener envTriv ⟨[Frame.fcmd ⟨"", ["frobnicate"], []⟩], 0, [], [], ⟨"", ""⟩, []⟩ =
      listener envTriv ⟨[], 1, [],
        [Ev.read 0, Ev.write (msgPkt "#msgList" "frobnicate: command not found ") true],
        ⟨"", ""⟩, []⟩ :=
  dispatch_unknown_continues envTriv ⟨"", ["frobnicate"], []⟩ "frobnicate" [] [] 0 [] []
    ⟨"", ""⟩ [] rfl rfl

/-- Witness for `empty_args_terminates`: a concrete decodable packet with
an empty args list. -/
theorem empty_args_terminates_witness :
    listener envTriv ⟨[Frame.fcmd ⟨"ping", [], [("k", "v")]⟩, Frame.raw "later"], 3, [true],
        [Ev.read 2], ⟨"", ""⟩, []⟩ =
      (none, ⟨[Frame.raw "later"], 4, [true], [Ev.read 2, Ev.read 3], ⟨"", ""⟩, []⟩) :=
  empty_args_terminates envTriv ⟨"ping", [], [("k", "v")]⟩ [Frame.raw "later"] 3 [true]
    [Ev.read 2] ⟨"", ""⟩ [] rfl

/-- Witness for `promptSecure_restores`: a session whose client answers the
`type` query with `"text"` and the prompt with `"secret"`. -/
theorem promptSecure_restores_witness :
    ∃ pre b, ((promptSecure "#msg-txt" "Please enter your password"
        (initSess [Frame.raw "text", Frame.raw "secret"] [] ⟨"", ""⟩)).2).trace =
      (initSess [Frame.raw "text", Frame.raw "secret"] [] ⟨"", ""⟩).trace ++ pre ++
        [Ev.write (setAttrPkt "#msg-txt" "type"
          (getAttribute "#msg-txt" "type"
            (initSess [Frame.raw "text", Frame.raw "secret"] [] ⟨"", ""⟩)).1.1) b] :=
  promptSecure_restores "#msg-txt" "Please enter your password"
    (initSess [Frame.raw "text", Frame.raw "secret"] [] ⟨"", ""⟩) (by decide)

/-- Witness for `register_password_mismatch`: the client answers the email
prompt with `b@x.com` and the two masked prompts with `p1` and `p2`. -/
theorem register_password_mismatch_witness :
    ((registerH envTriv ["register", "bob"]
        ⟨[Frame.raw "b@x.com", Frame.raw "text", Frame.raw "p1",
          Frame.raw "text", Frame.raw "p2"], 0, [], [], ⟨"", ""⟩, []⟩).2).saves = [] ∧
    Ev.write (msgPkt "#msg-list" "Failed! Passwords did not match") true ∈
      ((registerH envTriv ["register", "bob"]
        ⟨[Frame.raw "b@x.com", Frame.raw "text", Frame.raw "p1",
          Frame.raw "text", Frame.raw "p2"], 0, [], [], ⟨"", ""⟩, []⟩).2).trace :=
  register_password_mismatch envTriv "register" "bob" "b@x.com" "text" "p1" "text" "p2"
    [] [] 0 [] ⟨"", ""⟩ [] rfl rfl (by decide)

/-- Witness for `login_no_user`: `login alice` in an environment with no
accounts. -/
theorem login_no_user_witness :
    loginH envTriv ["login", "alice"] (initSess [] [] ⟨"", ""⟩) =
      (none,
       ⟨[], 0, [], [Ev.write (msgPkt "#msg-list" "User does not exist") true],
        ⟨"", ""⟩, []⟩) := by
  have h := login_no_user envTriv "login" "alice" [] (initSess [] [] ⟨"", ""⟩) rfl rfl
  simpa [popOk, initSess] using h

/-- Witness for `identity_set_only_on_completion`: a successful `login`
that does change the identity indeed writes the `"Welcome back, alice"`
confirmation. -/
theorem identity_set_only_on_completion_witness :
    ∃ b, Ev.write (msgPkt "#msg-list"
        ("Welcome back, " ++ ((loginH envLoadOk ["login", "alice"]
          (initSess [Frame.raw "text", Frame.raw "pw"] [] ⟨"", ""⟩)).2).user.Name)) b ∈
      ((loginH envLoadOk ["login", "alice"]
          (initSess [Frame.raw "text", Frame.raw "pw"] [] ⟨"", ""⟩)).2).trace :=
  (identity_set_only_on_completion envLoadOk ["login", "alice"]
    (initSess [Frame.raw "text", Frame.raw "pw"] [] ⟨"", ""⟩)).1 (by decide)

/-- Witness for `getHTML_guarded_by_exists`: the client answers the
`exists` query with `"false"`, and `getHTML` reports the missing element
without sending its own directive. -/
theorem getHTML_guarded_by_exists_witness :
    getHTML "#x" (initSess [Frame.raw "false"] [] ⟨"", ""⟩) =
      (("", some "element does not exist"),
       (existsQ "#x" (initSess [Frame.raw "false"] [] ⟨"", ""⟩)).2) :=
  (getHTML_guarded_by_exists "#x" (initSess [Frame.raw "false"] [] ⟨"", ""⟩)).2.1 (by decide)
